import Mathlib

/-!
Shallow embedding of kevinboone/pi-hcsr04 (src/hcsr04.c, src/hcsr04.h,
src/gpiopin.c, src/gpiopin.h).

Modelling conventions:
* C `double` values are modelled as `ℚ`; the constant 0.0001715 is modelled
  as the rational it denotes.
* C `int` and `long` values are modelled as `ℤ`.  The one place where the
  code performs an explicit narrowing conversion — the cast
  `int diff = (int) (end - start)` in `hcsr04_read_one` — is modelled
  faithfully as a two's-complement wrap to 32 bits (`intCast32`), which is
  the behaviour of the target compilers for an out-of-range
  `long`-to-`int` conversion on an LP64 platform.
* Fallible system interactions (`fopen` of the sysfs export file, `open` of
  the value endpoint) are modelled by an environment record `GpioEnv`
  supplying their outcomes; everything downstream of those outcomes is
  translated directly from the source.
* The background thread of `hcsr04_loop` is modelled by its per-iteration
  state transformer `hcsr04_loop_step` (the body of the `while` loop acting
  on the fields it touches) and its iteration `hcsr04_loop_run` over a list
  of `hcsr04_read_one` results.
-/

/-- Constant `USEC_TO_METRES` (hcsr04.c line 32): the double literal
`0.0001715`, how far sound travels in a microsecond, halved for the round
trip. -/
def USEC_TO_METRES : ℚ := 1715 / 10000000

/-- Constant `HCSR04_MAX_RANGE` (hcsr04.h line 19): maximum range of the
device in metres, the double literal `4.0`. -/
def HCSR04_MAX_RANGE : ℚ := 4

/-- Constant `HCSR04_VALID_SAMPLES` (hcsr04.h line 27): number of good
readings needed before the stored result is considered valid. -/
def HCSR04_VALID_SAMPLES : ℤ := 4

/-- Constant `HCSR04_MIN_CYCLE` (hcsr04.h line 14): shortest measurement
cycle time in msec recommended by the manufacturer. -/
def HCSR04_MIN_CYCLE : ℤ := 60

/-- Two's-complement narrowing of an integer to 32 bits, modelling the C
cast `(int) x` applied to a 64-bit `long` value `x`. -/
def intCast32 (x : ℤ) : ℤ := (x + 2 ^ 31) % 2 ^ 32 - 2 ^ 31

/-- Pin directions from gpiopin.h (`GPIOPIN_IN = 0`, `GPIOPIN_OUT = 1`). -/
inductive GPIOPinDirection
  | GPIOPIN_IN
  | GPIOPIN_OUT
deriving DecidableEq, Repr

/-- Structure `_GPIOPin` (gpiopin.c lines 23–27): the pin number and the
file descriptor of the opened sysfs value endpoint (-1 when not open). -/
structure GPIOPin where
  pin : ℤ
  value_fd : ℤ
deriving DecidableEq, Repr

/-- Function `gpiopin_create` (gpiopin.c lines 32–39): zero the structure,
store the pin number, set `value_fd` to -1.  Always succeeds. -/
def gpiopin_create (pin : ℤ) : GPIOPin :=
  { pin := pin, value_fd := -1 }

/-- Outcomes of the two fallible system interactions inside
`gpiopin_init`: whether the `fopen`/`fprintf` of `/sys/class/gpio/export`
succeeds, and the file descriptor returned by `open` on the pin's value
endpoint (negative on failure). -/
structure GpioEnv where
  export_write_ok : Bool
  open_value_fd : ℤ
deriving DecidableEq, Repr

/-- The two distinct failure messages that `gpiopin_init` can produce via
`asprintf`: `acquisitionError` is the message naming the export file
(produced inside `gpiopin_write_to_file`, gpiopin.c lines 57–63, when the
export write fails), and `openError` is the message naming the value
endpoint (gpiopin.c lines 107–112, when `open` fails after the direction
was written). -/
inductive GpioError
  | acquisitionError
  | openError
deriving DecidableEq, Repr

/-- Predicate for a `GpioEnv` under which `gpiopin_init` succeeds: the
export write works and `open` returns a non-negative descriptor. -/
def gpioEnvOk (env : GpioEnv) : Bool :=
  env.export_write_ok && decide (0 ≤ env.open_value_fd)

/-- Function `gpiopin_init` (gpiopin.c lines 83–115).  Writes the pin
number to `/sys/class/gpio/export`; on failure returns FALSE with the
acquisition error message and touches nothing else.  On success it writes
the direction file (errors there are passed a NULL error pointer and
ignored; the write has no further effect on the modelled state), then
opens the value endpoint and stores the result in `value_fd`; if the
descriptor is negative it returns FALSE with the open error message.
The `dir` argument selects only which direction string is written and
which open flags are used, neither of which affects the modelled state. -/
def gpiopin_init (self : GPIOPin) (dir : GPIOPinDirection) (env : GpioEnv) :
    Bool × Option GpioError × GPIOPin :=
  if env.export_write_ok then
    if 0 ≤ env.open_value_fd then
      (true, none, { self with value_fd := env.open_value_fd })
    else
      (false, some GpioError.openError, { self with value_fd := env.open_value_fd })
  else
    (false, some GpioError.acquisitionError, self)

/-- Function `gpiopin_uninit` (gpiopin.c lines 120–129): `close` the value
descriptor when it is non-negative, set `value_fd` to -1, write the pin
number to `/sys/class/gpio/unexport` ignoring errors.  The returned
Boolean records whether `close` was called, the only observable effect
besides the state update. -/
def gpiopin_uninit (self : GPIOPin) : GPIOPin × Bool :=
  ({ self with value_fd := -1 }, decide (0 ≤ self.value_fd))

/-- Structure `_HCSR04` (hcsr04.c lines 36–56), minus the `pthread_t`
handle (an opaque OS token with no bearing on any claim). -/
structure HCSR04 where
  sound_pin : ℤ
  echo_pin : ℤ
  max_time : ℤ
  stop : Bool
  gpiopin_sound : GPIOPin
  gpiopin_echo : GPIOPin
  cycle_usec : ℤ
  avg : ℚ
  smoothing : ℚ
  good_count : ℤ
deriving DecidableEq, Repr

/-- Function `hcsr04_create` (hcsr04.c lines 75–88): allocate, zero the
structure, store both pin numbers, create both pin objects, store
`cycle_msec * 1000` as the cycle time in microseconds, derive `max_time`
as the truncation to `int` of `HCSR04_MAX_RANGE / USEC_TO_METRES`, and
store the smoothing factor.  No input is validated.  (`memset` zeroes the
remaining fields: `stop`, `avg`, `good_count`.) -/
def hcsr04_create (sound_pin echo_pin cycle_msec : ℤ) (smoothing : ℚ) :
    HCSR04 :=
  { sound_pin := sound_pin
    echo_pin := echo_pin
    gpiopin_sound := gpiopin_create sound_pin
    gpiopin_echo := gpiopin_create echo_pin
    cycle_usec := cycle_msec * 1000
    max_time := ⌊HCSR04_MAX_RANGE / USEC_TO_METRES⌋
    smoothing := smoothing
    stop := false
    avg := 0
    good_count := 0 }

/-- Function `hcsr04_read_one` (hcsr04.c lines 181–213), as a function of
the two timestamps returned by `get_system_time_usec` around the falling
and rising edge waits (the pulse and the two `gpiopin_wait_for_trigger`
calls affect only the hardware, not the decision logic).  The code casts
the `long` difference to `int` (`diff`), compares it with `max_time`, and
returns -1.0 on a timeout, else `USEC_TO_METRES * (end - start)` computed
from the un-cast `long` difference. -/
def hcsr04_read_one (self : HCSR04) (start finish : ℤ) : ℚ :=
  if self.max_time < intCast32 (finish - start) then (-1 : ℚ)
  else USEC_TO_METRES * ((finish - start : ℤ) : ℚ)

/-- The body of the `while` loop of `hcsr04_loop` (hcsr04.c lines
114–130), acting on the state given one result `d` of `hcsr04_read_one`:
when `d > 0` fold `d` into the running average with the smoothing factor
and increment `good_count` clamped above at `HCSR04_VALID_SAMPLES`;
otherwise leave `avg` alone and decrement `good_count` clamped below
at 0. -/
def hcsr04_loop_step (self : HCSR04) (d : ℚ) : HCSR04 :=
  if 0 < d then
    { self with
        avg := d * (1 - self.smoothing) + self.avg * self.smoothing
        good_count := min (self.good_count + 1) HCSR04_VALID_SAMPLES }
  else
    { self with good_count := max (self.good_count - 1) 0 }

/-- Iteration of `hcsr04_loop` over a finite list of measurement
results. -/
def hcsr04_loop_run (self : HCSR04) (ds : List ℚ) : HCSR04 :=
  ds.foldl hcsr04_loop_step self

/-- Function `hcsr04_is_distance_valid` (hcsr04.c lines 218–221). -/
def hcsr04_is_distance_valid (self : HCSR04) : Bool :=
  decide (HCSR04_VALID_SAMPLES ≤ self.good_count)

/-- Function `hcsr04_get_distance` (hcsr04.c lines 226–232): a pure read
of the state (the C parameter is a `const` pointer and the body only
reads fields), returning the running average when the distance is valid
and -1.0 otherwise. -/
def hcsr04_get_distance (self : HCSR04) : ℚ :=
  if hcsr04_is_distance_valid self then self.avg else (-1 : ℚ)

/-- Identity of a sensor pin, for recording which pin an event acts on. -/
inductive PinId
  | sound
  | echo
deriving DecidableEq, Repr

/-- Observable actions performed by `hcsr04_init`, in program order:
initialising a pin, writing a level to a pin, starting the measurement
thread. -/
inductive HcsrEv
  | initPin (p : PinId) (dir : GPIOPinDirection)
  | setPin (p : PinId) (val : Bool)
  | startLoop
deriving DecidableEq, Repr

/-- Function `hcsr04_init` (hcsr04.c lines 139–165).  Resets `avg` and
`good_count` to zero, then initialises the echo pin as input, passing the
caller's error pointer through.  If that fails, it returns FALSE at once:
nothing further runs.  If it succeeds, the sound pin is initialised as
output with a NULL error pointer (its result is discarded), the sound pin
is driven low, the measurement thread is started detached, and TRUE is
returned.  The result carries the return value, the surfaced error, the
updated state, and the trace of observable actions in program order.
(`gpiopin_set` itself ignores the result of its `write`; its debug
`assert` on the descriptor is a build-configuration matter outside the
sources and is not modelled.) -/
def hcsr04_init (self : HCSR04) (echoEnv soundEnv : GpioEnv) :
    Bool × Option GpioError × HCSR04 × List HcsrEv :=
  let self1 : HCSR04 := { self with avg := 0, good_count := 0 }
  let echoRes := gpiopin_init self1.gpiopin_echo GPIOPinDirection.GPIOPIN_IN echoEnv
  if echoRes.1 then
    let soundRes := gpiopin_init self1.gpiopin_sound GPIOPinDirection.GPIOPIN_OUT soundEnv
    (true, none,
      { self1 with gpiopin_echo := echoRes.2.2, gpiopin_sound := soundRes.2.2 },
      [HcsrEv.initPin PinId.echo GPIOPinDirection.GPIOPIN_IN,
       HcsrEv.initPin PinId.sound GPIOPinDirection.GPIOPIN_OUT,
       HcsrEv.setPin PinId.sound false,
       HcsrEv.startLoop])
  else
    (false, echoRes.2.1, { self1 with gpiopin_echo := echoRes.2.2 },
      [HcsrEv.initPin PinId.echo GPIOPinDirection.GPIOPIN_IN])

/-! ## Helper lemmas -/

/-- Value of the derived field `max_time`: the truncation of
`HCSR04_MAX_RANGE / USEC_TO_METRES` = 40000000/1715 is 23323
microseconds. -/
theorem max_time_value : ⌊HCSR04_MAX_RANGE / USEC_TO_METRES⌋ = 23323 := by
  rw [Int.floor_eq_iff]
  norm_num [HCSR04_MAX_RANGE, USEC_TO_METRES]

/-- The 32-bit narrowing cast is the identity on values that fit in
a 32-bit signed int. -/
theorem intCast32_eq_self (x : ℤ) (hlo : -2 ^ 31 ≤ x) (hhi : x < 2 ^ 31) :
    intCast32 x = x := by
  unfold intCast32
  omega

/-- On a strictly positive sample the loop body folds the sample into the
average with the smoothing factor. -/
theorem hcsr04_loop_step_avg_pos (self : HCSR04) (d : ℚ) (h : 0 < d) :
    (hcsr04_loop_step self d).avg =
      d * (1 - self.smoothing) + self.avg * self.smoothing := by
  unfold hcsr04_loop_step
  rw [if_pos h]

/-- On a strictly positive sample the loop body increments `good_count`,
clamped above at `HCSR04_VALID_SAMPLES`. -/
theorem hcsr04_loop_step_good_count_pos (self : HCSR04) (d : ℚ) (h : 0 < d) :
    (hcsr04_loop_step self d).good_count =
      min (self.good_count + 1) HCSR04_VALID_SAMPLES := by
  unfold hcsr04_loop_step
  rw [if_pos h]

/-- On a non-positive sample the loop body leaves the average alone. -/
theorem hcsr04_loop_step_avg_nonpos (self : HCSR04) (d : ℚ) (h : ¬ 0 < d) :
    (hcsr04_loop_step self d).avg = self.avg := by
  unfold hcsr04_loop_step
  rw [if_neg h]

/-- On a non-positive sample the loop body decrements `good_count`,
clamped below at 0. -/
theorem hcsr04_loop_step_good_count_nonpos (self : HCSR04) (d : ℚ) (h : ¬ 0 < d) :
    (hcsr04_loop_step self d).good_count = max (self.good_count - 1) 0 := by
  unfold hcsr04_loop_step
  rw [if_neg h]

/-- One loop iteration moves a `good_count` lying in
[0, HCSR04_VALID_SAMPLES] by at most one. -/
theorem hcsr04_loop_step_change (self : HCSR04) (d : ℚ)
    (h0 : 0 ≤ self.good_count) (h4 : self.good_count ≤ HCSR04_VALID_SAMPLES) :
    |(hcsr04_loop_step self d).good_count - self.good_count| ≤ 1 := by
  unfold HCSR04_VALID_SAMPLES at h4
  rw [abs_le]
  by_cases h : 0 < d
  · rw [hcsr04_loop_step_good_count_pos self d h]
    unfold HCSR04_VALID_SAMPLES
    omega
  · rw [hcsr04_loop_step_good_count_nonpos self d h]
    omega

/-- One loop iteration keeps `good_count` inside [0, HCSR04_VALID_SAMPLES]. -/
theorem hcsr04_loop_step_range (self : HCSR04) (d : ℚ)
    (h0 : 0 ≤ self.good_count) (h4 : self.good_count ≤ HCSR04_VALID_SAMPLES) :
    0 ≤ (hcsr04_loop_step self d).good_count ∧
      (hcsr04_loop_step self d).good_count ≤ HCSR04_VALID_SAMPLES := by
  unfold HCSR04_VALID_SAMPLES at *
  by_cases h : 0 < d
  · rw [hcsr04_loop_step_good_count_pos self d h]
    unfold HCSR04_VALID_SAMPLES
    omega
  · rw [hcsr04_loop_step_good_count_nonpos self d h]
    omega

/-- Any finite run of the loop keeps `good_count` inside
[0, HCSR04_VALID_SAMPLES]. -/
theorem hcsr04_loop_run_range (ds : List ℚ) (self : HCSR04)
    (h0 : 0 ≤ self.good_count) (h4 : self.good_count ≤ HCSR04_VALID_SAMPLES) :
    0 ≤ (hcsr04_loop_run self ds).good_count ∧
      (hcsr04_loop_run self ds).good_count ≤ HCSR04_VALID_SAMPLES := by
  induction ds generalizing self with
  | nil => exact ⟨h0, h4⟩
  | cons d ds ih =>
      have hstep := hcsr04_loop_step_range self d h0 h4
      exact ih (hcsr04_loop_step self d) hstep.1 hstep.2

/-- One loop iteration keeps a non-negative `good_count` non-negative. -/
theorem hcsr04_loop_step_good_count_nonneg (self : HCSR04) (d : ℚ)
    (h0 : 0 ≤ self.good_count) : 0 ≤ (hcsr04_loop_step self d).good_count := by
  by_cases h : 0 < d
  · rw [hcsr04_loop_step_good_count_pos self d h]
    unfold HCSR04_VALID_SAMPLES
    omega
  · rw [hcsr04_loop_step_good_count_nonpos self d h]
    omega

/-- Each loop iteration raises `good_count` by at most one, and only on a
strictly positive sample, so a run beginning at a non-negative count can
raise it by at most the number of strictly positive samples in it. -/
theorem hcsr04_loop_run_good_count_le (ds : List ℚ) (self : HCSR04)
    (h0 : 0 ≤ self.good_count) :
    (hcsr04_loop_run self ds).good_count ≤
      self.good_count + (ds.countP (fun d => decide (0 < d)) : ℤ) := by
  induction ds generalizing self with
  | nil => simp [hcsr04_loop_run]
  | cons d ds ih =>
      have hstep : (hcsr04_loop_run self (d :: ds)) =
          hcsr04_loop_run (hcsr04_loop_step self d) ds := rfl
      have hcnt : ((d :: ds).countP (fun d => decide (0 < d)) : ℤ) =
          (ds.countP (fun d => decide (0 < d)) : ℤ) +
            (if 0 < d then 1 else 0) := by
        by_cases h : 0 < d <;> simp [List.countP_cons, h]
      have hs := ih (hcsr04_loop_step self d)
        (hcsr04_loop_step_good_count_nonneg self d h0)
      rw [hstep, hcnt]
      by_cases h : 0 < d
      · rw [hcsr04_loop_step_good_count_pos self d h] at hs
        unfold HCSR04_VALID_SAMPLES at hs
        rw [if_pos h]
        omega
      · rw [hcsr04_loop_step_good_count_nonpos self d h] at hs
        rw [if_neg h]
        omega

/-! ## Claims -/

/-- Claim C1, counterexample.  The claim asserts that whenever the
elapsed round-trip time exceeds `max_time`, `hcsr04_read_one` returns the
negative invalid sentinel.  With start timestamp 0 and end timestamp
2^32 the elapsed time 2^32 exceeds `max_time` = 23323, yet the `(int)`
cast wraps `diff` to 0, the timeout test fails, and the function returns
the positive value `USEC_TO_METRES * 2^32` instead of the sentinel. -/
theorem claim_C1_counterexample :
    (hcsr04_create 17 27 240 (1/2)).max_time < (2 : ℤ) ^ 32 - 0 ∧
    0 < hcsr04_read_one (hcsr04_create 17 27 240 (1/2)) 0 (2 ^ 32) := by
  have hmt : (hcsr04_create 17 27 240 (1/2)).max_time = 23323 := max_time_value
  have hcast : intCast32 ((2 : ℤ) ^ 32 - 0) = 0 := by
    unfold intCast32
    omega
  constructor
  · rw [hmt]
    norm_num
  · unfold hcsr04_read_one
    rw [hcast, hmt, if_neg (by norm_num)]
    norm_num [USEC_TO_METRES]

/-- Claim C1, amended: for every elapsed time that exceeds `max_time` but
is still representable in the 32-bit `int` through which the code
compares (elapsed < 2^31), `hcsr04_read_one` returns the invalid sentinel
-1; and for every elapsed time with 0 ≤ elapsed ≤ `max_time` it returns
exactly elapsed * USEC_TO_METRES. -/
theorem claim_C1_amended (self : HCSR04) (start finish : ℤ)
    (hmt : self.max_time = ⌊HCSR04_MAX_RANGE / USEC_TO_METRES⌋) :
    (self.max_time < finish - start → finish - start < 2 ^ 31 →
        hcsr04_read_one self start finish = -1) ∧
    (0 ≤ finish - start → finish - start ≤ self.max_time →
        hcsr04_read_one self start finish =
          ((finish - start : ℤ) : ℚ) * USEC_TO_METRES) := by
  rw [max_time_value] at hmt
  constructor
  · intro h1 h2
    unfold hcsr04_read_one
    rw [intCast32_eq_self _ (by omega) h2, if_pos h1]
  · intro h1 h2
    unfold hcsr04_read_one
    rw [intCast32_eq_self _ (by omega) (by omega), if_neg (by omega),
      mul_comm]

/-- Witness for claim C1 (amended), at elapsed times 30000 (a timeout)
and 100 (a valid reading). -/
theorem claim_C1_amended_witness :
    hcsr04_read_one (hcsr04_create 17 27 240 (1/2)) 0 30000 = -1 ∧
    hcsr04_read_one (hcsr04_create 17 27 240 (1/2)) 0 100 =
      ((100 - 0 : ℤ) : ℚ) * USEC_TO_METRES := by
  have hm : (hcsr04_create 17 27 240 (1/2)).max_time = 23323 := max_time_value
  constructor
  · exact (claim_C1_amended (hcsr04_create 17 27 240 (1/2)) 0 30000 rfl).1
      (by omega) (by omega)
  · exact (claim_C1_amended (hcsr04_create 17 27 240 (1/2)) 0 100 rfl).2
      (by omega) (by omega)

/-- Claim C2: starting from any state whose `good_count` lies in
[0, HCSR04_VALID_SAMPLES], after any finite sequence of measurement
results the count is still in [0, HCSR04_VALID_SAMPLES], and the next
loop iteration, on any sample, changes it by at most 1. -/
theorem claim_C2 (self : HCSR04) (h0 : 0 ≤ self.good_count)
    (h4 : self.good_count ≤ HCSR04_VALID_SAMPLES) (ds : List ℚ) (d : ℚ) :
    (0 ≤ (hcsr04_loop_run self ds).good_count ∧
      (hcsr04_loop_run self ds).good_count ≤ HCSR04_VALID_SAMPLES) ∧
    |(hcsr04_loop_step (hcsr04_loop_run self ds) d).good_count -
      (hcsr04_loop_run self ds).good_count| ≤ 1 := by
  have hr := hcsr04_loop_run_range ds self h0 h4
  exact ⟨hr, hcsr04_loop_step_change _ d hr.1 hr.2⟩

/-- Witness for claim C2, on a freshly created sensor and the result
sequence 1, -1, 0, 2 followed by one more sample 1. -/
theorem claim_C2_witness :
    (0 ≤ (hcsr04_loop_run (hcsr04_create 17 27 240 (1/2))
        [1, -1, 0, 2]).good_count ∧
      (hcsr04_loop_run (hcsr04_create 17 27 240 (1/2))
        [1, -1, 0, 2]).good_count ≤ HCSR04_VALID_SAMPLES) ∧
    |(hcsr04_loop_step (hcsr04_loop_run (hcsr04_create 17 27 240 (1/2))
        [1, -1, 0, 2]) 1).good_count -
      (hcsr04_loop_run (hcsr04_create 17 27 240 (1/2))
        [1, -1, 0, 2]).good_count| ≤ 1 :=
  claim_C2 (hcsr04_create 17 27 240 (1/2)) (le_refl 0)
    (by norm_num [hcsr04_create, HCSR04_VALID_SAMPLES]) [1, -1, 0, 2] 1

/-- Concrete loop state used in the counterexample for claim C3: a
freshly created sensor whose running average has reached 1 with a good
count of 2. -/
def c3State : HCSR04 :=
  { hcsr04_create 17 27 240 (1/2) with avg := 1, good_count := 2 }

/-- Claim C3, counterexample.  The claim asserts that a reading of
exactly 0 counts as a valid sample (incrementing `good_count` and folding
the reading into the average).  The loop body tests `d > 0`, so the
reading 0 takes the invalid branch: from `c3State` (average 1, count 2)
it leaves the average at 1 and decrements the count to 1, while the claim
predicts count 3 = min (2+1) 4 and average 1/2 = 0*(1-s) + 1*s. -/
theorem claim_C3_counterexample :
    (0 : ℚ) ≤ 0 ∧
    (hcsr04_loop_step c3State 0).good_count = 1 ∧
    (hcsr04_loop_step c3State 0).avg = 1 ∧
    ¬ ((hcsr04_loop_step c3State 0).good_count =
        min (c3State.good_count + 1) HCSR04_VALID_SAMPLES ∧
       (hcsr04_loop_step c3State 0).avg =
        0 * (1 - c3State.smoothing) + c3State.avg * c3State.smoothing) := by
  refine ⟨le_refl 0, ?_, ?_, ?_⟩
  · rw [hcsr04_loop_step_good_count_nonpos c3State 0 (by norm_num)]
    norm_num [c3State, hcsr04_create]
  · rw [hcsr04_loop_step_avg_nonpos c3State 0 (by norm_num)]
    norm_num [c3State, hcsr04_create]
  · intro hcl
    have := hcl.1
    rw [hcsr04_loop_step_good_count_nonpos c3State 0 (by norm_num)] at this
    norm_num [c3State, hcsr04_create, HCSR04_VALID_SAMPLES] at this

/-- Claim C3, amended: a sample counts as valid exactly when it is
strictly positive.  On a strictly positive sample the loop body folds it
into the running average with the smoothing factor and increments
`good_count` clamped at HCSR04_VALID_SAMPLES; a reading of exactly 0
takes the invalid branch, leaving the average unchanged and decrementing
the count clamped at 0. -/
theorem claim_C3_amended (self : HCSR04) (d : ℚ) :
    (0 < d →
      (hcsr04_loop_step self d).avg =
        d * (1 - self.smoothing) + self.avg * self.smoothing ∧
      (hcsr04_loop_step self d).good_count =
        min (self.good_count + 1) HCSR04_VALID_SAMPLES) ∧
    (d = 0 →
      (hcsr04_loop_step self d).avg = self.avg ∧
      (hcsr04_loop_step self d).good_count =
        max (self.good_count - 1) 0) := by
  constructor
  · intro h
    exact ⟨hcsr04_loop_step_avg_pos self d h,
      hcsr04_loop_step_good_count_pos self d h⟩
  · intro h
    have hnp : ¬ 0 < d := by rw [h]; exact lt_irrefl 0
    exact ⟨hcsr04_loop_step_avg_nonpos self d hnp,
      hcsr04_loop_step_good_count_nonpos self d hnp⟩

/-- Witness for claim C3 (amended), on the state `c3State` with the
samples 2 (valid) and 0 (treated as invalid). -/
theorem claim_C3_amended_witness :
    ((hcsr04_loop_step c3State 2).avg =
        2 * (1 - c3State.smoothing) + c3State.avg * c3State.smoothing ∧
      (hcsr04_loop_step c3State 2).good_count =
        min (c3State.good_count + 1) HCSR04_VALID_SAMPLES) ∧
    ((hcsr04_loop_step c3State 0).avg = c3State.avg ∧
      (hcsr04_loop_step c3State 0).good_count =
        max (c3State.good_count - 1) 0) :=
  ⟨(claim_C3_amended c3State 2).1 (by norm_num),
   (claim_C3_amended c3State 0).2 rfl⟩

/-- Claim C10: `hcsr04_create` accepts every input unchanged and
unvalidated — for all pin numbers, any cycle period (including ones below
HCSR04_MIN_CYCLE) and any smoothing factor (including ones below 0 or at
or above 1), the stored state holds the pins as given, the cycle period
as `cycle_msec * 1000` microseconds, and the smoothing factor verbatim,
with no clamping or rejection (the function is total, so it succeeds for
every input). -/
theorem claim_C10 (sound_pin echo_pin cycle_msec : ℤ) (smoothing : ℚ) :
    (hcsr04_create sound_pin echo_pin cycle_msec smoothing).sound_pin =
      sound_pin ∧
    (hcsr04_create sound_pin echo_pin cycle_msec smoothing).echo_pin =
      echo_pin ∧
    (hcsr04_create sound_pin echo_pin cycle_msec smoothing).cycle_usec =
      cycle_msec * 1000 ∧
    (hcsr04_create sound_pin echo_pin cycle_msec smoothing).smoothing =
      smoothing :=
  ⟨rfl, rfl, rfl, rfl⟩

/-- Claim C4: from any state with `good_count` in [0, HCSR04_VALID_SAMPLES),
four consecutive valid (strictly positive) samples make
`hcsr04_is_distance_valid` true; one subsequent invalid (negative) sample
makes it false again; and validity is exactly the test
`HCSR04_VALID_SAMPLES ≤ good_count` (equality at the threshold
suffices). -/
theorem claim_C4 (self : HCSR04) (h0 : 0 ≤ self.good_count)
    (hlt : self.good_count < HCSR04_VALID_SAMPLES)
    (d1 d2 d3 d4 d5 : ℚ) (p1 : 0 < d1) (p2 : 0 < d2) (p3 : 0 < d3)
    (p4 : 0 < d4) (n5 : d5 < 0) :
    hcsr04_is_distance_valid (hcsr04_loop_run self [d1, d2, d3, d4]) = true ∧
    hcsr04_is_distance_valid
      (hcsr04_loop_run self [d1, d2, d3, d4, d5]) = false ∧
    ∀ s : HCSR04,
      hcsr04_is_distance_valid s = true ↔
        HCSR04_VALID_SAMPLES ≤ s.good_count := by
  have hnp : ¬ 0 < d5 := not_lt.mpr (le_of_lt n5)
  have hrun4 : (hcsr04_loop_run self [d1, d2, d3, d4]).good_count =
      HCSR04_VALID_SAMPLES := by
    show (hcsr04_loop_step (hcsr04_loop_step (hcsr04_loop_step
      (hcsr04_loop_step self d1) d2) d3) d4).good_count =
        HCSR04_VALID_SAMPLES
    rw [hcsr04_loop_step_good_count_pos _ _ p4,
        hcsr04_loop_step_good_count_pos _ _ p3,
        hcsr04_loop_step_good_count_pos _ _ p2,
        hcsr04_loop_step_good_count_pos _ _ p1]
    unfold HCSR04_VALID_SAMPLES at hlt ⊢
    omega
  have hrun5 : (hcsr04_loop_run self [d1, d2, d3, d4, d5]).good_count = 3 := by
    have he : hcsr04_loop_run self [d1, d2, d3, d4, d5] =
        hcsr04_loop_step (hcsr04_loop_run self [d1, d2, d3, d4]) d5 := rfl
    rw [he, hcsr04_loop_step_good_count_nonpos _ _ hnp, hrun4]
    unfold HCSR04_VALID_SAMPLES
    norm_num
  refine ⟨?_, ?_, ?_⟩
  · simp [hcsr04_is_distance_valid, hrun4]
  · simp [hcsr04_is_distance_valid, hrun5, HCSR04_VALID_SAMPLES]
  · intro s
    simp [hcsr04_is_distance_valid]

/-- Witness for claim C4: a fresh sensor, four valid samples of 1 metre,
then one invalid sample; the validity test is checked on `c3State`. -/
theorem claim_C4_witness :
    hcsr04_is_distance_valid
      (hcsr04_loop_run (hcsr04_create 17 27 240 (1/2)) [1, 1, 1, 1]) =
        true ∧
    hcsr04_is_distance_valid
      (hcsr04_loop_run (hcsr04_create 17 27 240 (1/2)) [1, 1, 1, 1, -1]) =
        false ∧
    (hcsr04_is_distance_valid c3State = true ↔
      HCSR04_VALID_SAMPLES ≤ c3State.good_count) := by
  have h := claim_C4 (hcsr04_create 17 27 240 (1/2)) (le_refl 0)
    (by norm_num [hcsr04_create, HCSR04_VALID_SAMPLES])
    1 1 1 1 (-1) (by norm_num) (by norm_num) (by norm_num) (by norm_num)
    (by norm_num)
  exact ⟨h.1, h.2.1, h.2.2 c3State⟩

/-- Claim C5: on a loop cycle whose `hcsr04_read_one` result is the
invalid (negative) sentinel, the running average is left unchanged and
`good_count` is decremented with a floor of 0. -/
theorem claim_C5 (self : HCSR04) (d : ℚ) (h : d < 0) :
    (hcsr04_loop_step self d).avg = self.avg ∧
    (hcsr04_loop_step self d).good_count = max (self.good_count - 1) 0 := by
  have hnp : ¬ 0 < d := not_lt.mpr (le_of_lt h)
  exact ⟨hcsr04_loop_step_avg_nonpos self d hnp,
    hcsr04_loop_step_good_count_nonpos self d hnp⟩

/-- Witness for claim C5, at the sentinel value -1 from state `c3State`. -/
theorem claim_C5_witness :
    (hcsr04_loop_step c3State (-1)).avg = c3State.avg ∧
    (hcsr04_loop_step c3State (-1)).good_count =
      max (c3State.good_count - 1) 0 :=
  claim_C5 c3State (-1) (by norm_num)

/-- Claim C6: `hcsr04_get_distance` returns the running average when the
distance is valid and the invalid sentinel -1 otherwise.  It is embedded
as a pure function of the state (the C function takes a `const` pointer
and only reads fields), so by construction it performs no measurement and
leaves the sensor state unchanged. -/
theorem claim_C6 (self : HCSR04) :
    (hcsr04_is_distance_valid self = true →
      hcsr04_get_distance self = self.avg) ∧
    (hcsr04_is_distance_valid self = false →
      hcsr04_get_distance self = -1) := by
  constructor
  · intro h
    simp [hcsr04_get_distance, h]
  · intro h
    simp [hcsr04_get_distance, h]

/-- Witness for claim C6, on a valid state (`c3State` with the count
raised to the threshold) and on the invalid state `c3State`. -/
theorem claim_C6_witness :
    hcsr04_get_distance { c3State with good_count := 4 } =
      ({ c3State with good_count := 4 } : HCSR04).avg ∧
    hcsr04_get_distance c3State = -1 :=
  ⟨(claim_C6 { c3State with good_count := 4 }).1 (by decide),
   (claim_C6 c3State).2 (by decide)⟩

/-- Success of `gpiopin_init` is exactly `gpioEnvOk`: the export write
succeeded and the value endpoint opened. -/
theorem gpiopin_init_fst (p : GPIOPin) (dir : GPIOPinDirection)
    (env : GpioEnv) : (gpiopin_init p dir env).1 = gpioEnvOk env := by
  rcases env with ⟨eo, fd⟩
  by_cases hfd : 0 ≤ fd <;> cases eo <;> simp [gpiopin_init, gpioEnvOk, hfd]

/-- Claim C7: on a line with no open handle, `gpiopin_init` fails with the
acquisition error exactly when the export write fails, fails with the
open error exactly when the export write succeeds but the value endpoint
cannot be opened, and on either failure the resulting line has no open
handle, so a subsequent `gpiopin_uninit` calls no `close` and leaves the
descriptor at -1. -/
theorem claim_C7 (p : GPIOPin) (dir : GPIOPinDirection) (env : GpioEnv)
    (hp : p.value_fd < 0) :
    (gpiopin_init p dir env).1 = gpioEnvOk env ∧
    ((gpiopin_init p dir env).2.1 = some GpioError.acquisitionError ↔
      env.export_write_ok = false) ∧
    ((gpiopin_init p dir env).2.1 = some GpioError.openError ↔
      env.export_write_ok = true ∧ env.open_value_fd < 0) ∧
    ((gpiopin_init p dir env).1 = false →
      (gpiopin_init p dir env).2.2.value_fd < 0 ∧
      (gpiopin_uninit (gpiopin_init p dir env).2.2).2 = false ∧
      (gpiopin_uninit (gpiopin_init p dir env).2.2).1.value_fd = -1) := by
  rcases env with ⟨eo, fd⟩
  by_cases hfd : 0 ≤ fd <;> cases eo <;>
    simp [gpiopin_init, gpiopin_uninit, gpioEnvOk, hfd, hp] <;> omega

/-- Witness for claim C7: a freshly created line whose export write is
denied. -/
theorem claim_C7_witness :
    (gpiopin_init (gpiopin_create 17) GPIOPinDirection.GPIOPIN_IN
        ⟨false, -1⟩).1 = gpioEnvOk ⟨false, -1⟩ ∧
    ((gpiopin_init (gpiopin_create 17) GPIOPinDirection.GPIOPIN_IN
        ⟨false, -1⟩).2.1 = some GpioError.acquisitionError ↔
      (⟨false, -1⟩ : GpioEnv).export_write_ok = false) ∧
    ((gpiopin_init (gpiopin_create 17) GPIOPinDirection.GPIOPIN_IN
        ⟨false, -1⟩).2.1 = some GpioError.openError ↔
      (⟨false, -1⟩ : GpioEnv).export_write_ok = true ∧
        (⟨false, -1⟩ : GpioEnv).open_value_fd < 0) ∧
    ((gpiopin_init (gpiopin_create 17) GPIOPinDirection.GPIOPIN_IN
        ⟨false, -1⟩).1 = false →
      (gpiopin_init (gpiopin_create 17) GPIOPinDirection.GPIOPIN_IN
        ⟨false, -1⟩).2.2.value_fd < 0 ∧
      (gpiopin_uninit (gpiopin_init (gpiopin_create 17)
        GPIOPinDirection.GPIOPIN_IN ⟨false, -1⟩).2.2).2 = false ∧
      (gpiopin_uninit (gpiopin_init (gpiopin_create 17)
        GPIOPinDirection.GPIOPIN_IN ⟨false, -1⟩).2.2).1.value_fd = -1) :=
  claim_C7 (gpiopin_create 17) GPIOPinDirection.GPIOPIN_IN ⟨false, -1⟩
    (by norm_num [gpiopin_create])

/-- Claim C8: `hcsr04_init` initialises the echo line (as input) first;
if that fails it returns false, surfaces the echo line's error, and its
trace holds only the echo initialisation — in particular no loop start.
If the echo line succeeds, it initialises the sound line (as output),
tolerating any outcome of that call: for every `soundEnv` it still drives
the sound line low, starts the loop, and returns success with no
error. -/
theorem claim_C8 (self : HCSR04) (echoEnv soundEnv : GpioEnv) :
    (gpioEnvOk echoEnv = false →
      (hcsr04_init self echoEnv soundEnv).1 = false ∧
      (hcsr04_init self echoEnv soundEnv).2.1 =
        (gpiopin_init self.gpiopin_echo GPIOPinDirection.GPIOPIN_IN
          echoEnv).2.1 ∧
      (hcsr04_init self echoEnv soundEnv).2.2.2 =
        [HcsrEv.initPin PinId.echo GPIOPinDirection.GPIOPIN_IN] ∧
      HcsrEv.startLoop ∉ (hcsr04_init self echoEnv soundEnv).2.2.2) ∧
    (gpioEnvOk echoEnv = true →
      (hcsr04_init self echoEnv soundEnv).1 = true ∧
      (hcsr04_init self echoEnv soundEnv).2.1 = none ∧
      (hcsr04_init self echoEnv soundEnv).2.2.2 =
        [HcsrEv.initPin PinId.echo GPIOPinDirection.GPIOPIN_IN,
         HcsrEv.initPin PinId.sound GPIOPinDirection.GPIOPIN_OUT,
         HcsrEv.setPin PinId.sound false,
         HcsrEv.startLoop]) := by
  rcases echoEnv with ⟨eo, fd⟩
  by_cases hfd : 0 ≤ fd <;> cases eo <;>
    simp [hcsr04_init, gpiopin_init, gpioEnvOk, hfd]

/-- Witness for claim C8: a failing echo environment on one sensor and,
on another, a succeeding echo environment paired with a failing sound
environment, whose failure is tolerated. -/
theorem claim_C8_witness :
    (hcsr04_init (hcsr04_create 17 27 240 (1/2)) ⟨false, -1⟩
        ⟨true, 4⟩).1 = false ∧
    (hcsr04_init (hcsr04_create 17 27 240 (1/2)) ⟨false, -1⟩
        ⟨true, 4⟩).2.2.2 =
      [HcsrEv.initPin PinId.echo GPIOPinDirection.GPIOPIN_IN] ∧
    (hcsr04_init (hcsr04_create 17 27 240 (1/2)) ⟨true, 3⟩
        ⟨false, -1⟩).1 = true ∧
    (hcsr04_init (hcsr04_create 17 27 240 (1/2)) ⟨true, 3⟩
        ⟨false, -1⟩).2.2.2 =
      [HcsrEv.initPin PinId.echo GPIOPinDirection.GPIOPIN_IN,
       HcsrEv.initPin PinId.sound GPIOPinDirection.GPIOPIN_OUT,
       HcsrEv.setPin PinId.sound false,
       HcsrEv.startLoop] := by
  have hbad := claim_C8 (hcsr04_create 17 27 240 (1/2)) ⟨false, -1⟩ ⟨true, 4⟩
  have hgood := claim_C8 (hcsr04_create 17 27 240 (1/2)) ⟨true, 3⟩ ⟨false, -1⟩
  refine ⟨(hbad.1 (by decide)).1, (hbad.1 (by decide)).2.2.1,
    (hgood.2 (by decide)).1, (hgood.2 (by decide)).2.2⟩

/-- Claim C9: every call to `hcsr04_init` (successful or not, for every
environment) resets the running average and `good_count` to 0, so the
resulting state is invalid and reads as the sentinel; and after the loop
has processed any sequence containing fewer than HCSR04_VALID_SAMPLES
valid (strictly positive) samples, `hcsr04_is_distance_valid` is still
false and `hcsr04_get_distance` still returns the sentinel -1. -/
theorem claim_C9 (self : HCSR04) (echoEnv soundEnv : GpioEnv) (ds : List ℚ)
    (hds : ((ds.countP (fun d => decide (0 < d))) : ℤ) <
      HCSR04_VALID_SAMPLES) :
    (hcsr04_init self echoEnv soundEnv).2.2.1.avg = 0 ∧
    (hcsr04_init self echoEnv soundEnv).2.2.1.good_count = 0 ∧
    hcsr04_is_distance_valid
      (hcsr04_loop_run (hcsr04_init self echoEnv soundEnv).2.2.1 ds) =
        false ∧
    hcsr04_get_distance
      (hcsr04_loop_run (hcsr04_init self echoEnv soundEnv).2.2.1 ds) =
        -1 := by
  have havg : (hcsr04_init self echoEnv soundEnv).2.2.1.avg = 0 := by
    simp only [hcsr04_init]
    split <;> simp
  have hgc : (hcsr04_init self echoEnv soundEnv).2.2.1.good_count = 0 := by
    simp only [hcsr04_init]
    split <;> simp
  have hle := hcsr04_loop_run_good_count_le ds
    (hcsr04_init self echoEnv soundEnv).2.2.1 (by rw [hgc])
  rw [hgc] at hle
  have hvalid : hcsr04_is_distance_valid
      (hcsr04_loop_run (hcsr04_init self echoEnv soundEnv).2.2.1 ds) =
        false := by
    unfold hcsr04_is_distance_valid
    unfold HCSR04_VALID_SAMPLES at hds ⊢
    simp only [decide_eq_false_iff_not, not_le]
    omega
  refine ⟨havg, hgc, hvalid, ?_⟩
  simp [hcsr04_get_distance, hvalid]

/-- Witness for claim C9: a fresh sensor, both lines initialising
successfully, after a run of three valid samples. -/
theorem claim_C9_witness :
    (hcsr04_init (hcsr04_create 17 27 240 (1/2)) ⟨true, 3⟩
      ⟨true, 4⟩).2.2.1.avg = 0 ∧
    (hcsr04_init (hcsr04_create 17 27 240 (1/2)) ⟨true, 3⟩
      ⟨true, 4⟩).2.2.1.good_count = 0 ∧
    hcsr04_is_distance_valid
      (hcsr04_loop_run (hcsr04_init (hcsr04_create 17 27 240 (1/2))
        ⟨true, 3⟩ ⟨true, 4⟩).2.2.1 [1, 1, 1]) = false ∧
    hcsr04_get_distance
      (hcsr04_loop_run (hcsr04_init (hcsr04_create 17 27 240 (1/2))
        ⟨true, 3⟩ ⟨true, 4⟩).2.2.1 [1, 1, 1]) = -1 :=
  claim_C9 (hcsr04_create 17 27 240 (1/2)) ⟨true, 3⟩ ⟨true, 4⟩ [1, 1, 1]
    (by simp [List.countP, List.countP.go, HCSR04_VALID_SAMPLES])
